import Mathlib

/-!
Shallow embedding of the jobscope-agent resource-accounting engine
(src/jobscope-agent/src/collectors/{cpu,gpu,process}.rs, metrics.rs, mode.rs).

External inputs (files, environment variables, host counters, NVML queries)
are modelled as explicit environment records; each Rust function that reads
them becomes a pure Lean function of the environment.  Rust `u64` arithmetic
that wraps in release builds is modelled with an explicit `% 2 ^ 64`
(`u64add`), and `saturating_mul` with `satMul64`.  `f32`/`f64` percentages
are modelled as exact rationals.
-/

namespace Jobscope

/-- Source `mode.rs`: `enum AgentMode { Local, Slurm }`. -/
inductive AgentMode where
  | Local
  | Slurm
deriving DecidableEq, Repr

/-- Source `metrics.rs` / `cpu.rs`: memory load record; `max_used_bytes` is the
optional lifetime peak filled only by the cluster-managed path. -/
structure MemoryLoad where
  usedBytes : Nat
  totalBytes : Nat
  maxUsedBytes : Option Nat
deriving DecidableEq, Repr

/-- Source `metrics.rs`: one CPU entry of a snapshot. -/
structure CPUInfo where
  index : Nat
  name : Option String
  usagePercent : ℚ
deriving DecidableEq, Repr

/-- Source `metrics.rs`: the CPU section of a snapshot. -/
structure CPUsSnapshot where
  cpus : List CPUInfo
  memory : MemoryLoad
deriving DecidableEq, Repr

/-- Source `metrics.rs`: one GPU entry of a snapshot. -/
structure GPUInfo where
  index : Nat
  name : Option String
  usagePercent : ℚ
  memoryLoad : MemoryLoad
deriving DecidableEq, Repr

/-- Source `metrics.rs`: the GPU section of a snapshot. -/
structure GPUsSnapshot where
  gpus : List GPUInfo
deriving DecidableEq, Repr

/-- Source `metrics.rs`: one process entry of a snapshot. -/
structure ProcessInfo where
  pid : Nat
  name : Option String
  cpuUsagePercent : ℚ
  cpuMemoryBytes : Nat
  gpuUsagePercent : ℚ
  gpuMemoryBytes : Nat
  cpusIndexes : List Nat
  gpusIndexes : List Nat
deriving DecidableEq, Repr

/-- Source `metrics.rs`: the process section of a snapshot. -/
structure ProcessesSnapshot where
  processes : List ProcessInfo
deriving DecidableEq, Repr

/-! ## Machine-integer and string primitives -/

/-- Rust release-mode `u64` wrapping addition. -/
def u64add (a b : Nat) : Nat := (a + b) % 2 ^ 64

/-- Rust `u64::saturating_mul`. -/
def satMul64 (a b : Nat) : Nat := min (a * b) (2 ^ 64 - 1)

/-- Character-list core of `strTrim`. -/
def trimChars (l : List Char) : List Char :=
  (((l.dropWhile Char.isWhitespace).reverse.dropWhile Char.isWhitespace).reverse)

/-- Rust `str::trim` (structurally recursive, so that concrete inputs
evaluate inside the kernel). -/
def strTrim (s : String) : String := String.mk (trimChars s.data)

/-- Accumulator loop of `splitChar`. -/
def splitCharGo (c : Char) : List Char → List Char → List String
  | [], acc => [String.mk acc.reverse]
  | x :: xs, acc =>
    if x = c then String.mk acc.reverse :: splitCharGo c xs []
    else splitCharGo c xs (x :: acc)

/-- Rust `str::split(c)` for a character separator: empty pieces are kept,
the empty string yields one empty piece. -/
def splitChar (c : Char) (s : String) : List String := splitCharGo c s.data []

/-- Rust `str::starts_with` for a string pattern. -/
def strStartsWith (s p : String) : Bool := p.data.isPrefixOf s.data

/-- Drop the first `n` characters (used to model `str::strip_prefix` on an
ASCII pattern as a drop of the pattern's length). -/
def strDrop (s : String) (n : Nat) : String := String.mk (s.data.drop n)

/-- Rust `str::parse::<u64>` (also `usize` on a 64-bit host): an optional
leading `+`, then one or more ASCII digits, value below `2^64`. -/
def parseU64 (s : String) : Option Nat :=
  let l := match s.data with
    | '+' :: rest => rest
    | l => l
  if l ≠ [] ∧ l.all Char.isDigit then
    let n := l.foldl (fun a c => a * 10 + (c.toNat - 48)) 0
    if n < 2 ^ 64 then some n else none
  else none

/-- Rust `str::lines`: split on `\n`, drop a trailing empty segment, strip a
trailing `\r` from each line. -/
def rustLines (s : String) : List String :=
  let parts := splitChar '\n' s
  let parts := if parts.getLast? = some "" then parts.dropLast else parts
  parts.map (fun l =>
    match l.data.getLast? with
    | some '\r' => String.mk l.data.dropLast
    | _ => l)

/-- First-occurrence loop of `splitOnceChar`. -/
def splitOnceCharGo (c : Char) : List Char → List Char → Option (String × String)
  | [], _ => none
  | x :: xs, acc =>
    if x = c then some (String.mk acc.reverse, String.mk xs)
    else splitOnceCharGo c xs (x :: acc)

/-- Rust `str::split_once(c)` for a character separator. -/
def splitOnceChar (c : Char) (s : String) : Option (String × String) :=
  splitOnceCharGo c s.data []

/-! ## Environments for the external sources -/

/-- One host CPU as reported by sysinfo (`system.cpus()`). -/
structure HostCpu where
  name : String
  usage : ℚ
deriving DecidableEq, Repr

/-- One tracked process as reported by sysinfo (`system.processes()`). -/
structure ProcEntry where
  pid : Nat
  name : Option String
  cpuUsage : ℚ
  memory : Nat
deriving DecidableEq, Repr

/-- The host-side environment consumed by `cpu.rs` and `process.rs`:
a read-only file system, the environment variables, and the sysinfo
`System` counters. -/
structure SysEnv where
  fs : String → Option String
  env : String → Option String
  hostCpus : List HostCpu
  hostTotalMemory : Nat
  hostUsedMemory : Nat
  processes : List ProcEntry

/-! ## cpu.rs source readers -/

/-- Source `cpu.rs::parse_cpu_list`: comma-separated indices and inclusive ranges,
unparsable parts skipped. -/
def parseCpuList (listStr : String) : List Nat :=
  (((splitChar ',' listStr).map strTrim).filter (fun s => s ≠ "")).foldl
    (fun cpus part =>
      match splitOnceChar '-' part with
      | some (st, en) =>
        match parseU64 st, parseU64 en with
        | some s, some e => cpus ++ List.range' s (e + 1 - s)
        | _, _ => cpus
      | none =>
        match parseU64 part with
        | some i => cpus ++ [i]
        | none => cpus)
    []

/-- Source `cpu.rs::read_allowed_cpus_from_status`: first `Cpus_allowed_list:` line
of `/proc/self/status`, parsed as a CPU list. -/
def readAllowedCpusFromStatus (fs : String → Option String) : Option (List Nat) :=
  (fs "/proc/self/status").bind fun status =>
    (rustLines status).findSome? fun line =>
      if strStartsWith line "Cpus_allowed_list:" then
        some (parseCpuList (strTrim (strDrop line "Cpus_allowed_list:".length)))
      else none

/-- The per-line body of `cpu.rs::get_cgroup_memory_path`: scan the
colon-delimited records; empty controllers field means v2 (second component
`true`), a `memory` controller means v1 (`false`); a record with fewer than
three fields aborts the whole scan (the Rust `?` operator returns `None`
from the function). -/
def cgroupScan : List String → Option (String × Bool)
  | [] => none
  | line :: rest =>
    let parts := splitChar ':' line
    match parts[1]?, parts[2]? with
    | some controllers, some path =>
      if controllers = "" then
        some ("/sys/fs/cgroup" ++ path, true)
      else if (splitChar ',' controllers).any (fun c => c = "memory") then
        some ("/sys/fs/cgroup/memory" ++ path, false)
      else cgroupScan rest
    | _, _ => none

/-- Source `cpu.rs::get_cgroup_memory_path`. -/
def getCgroupMemoryPath (fs : String → Option String) : Option (String × Bool) :=
  (fs "/proc/self/cgroup").bind fun cgroup => cgroupScan (rustLines cgroup)

/-- Source `cpu.rs::read_u64`. -/
def readU64 (fs : String → Option String) (path : String) : Option Nat :=
  (fs path).bind fun s => parseU64 (strTrim s)

/-- Source `cpu.rs::read_env_u64`: a value that parses to `0` is reported absent. -/
def readEnvU64 (env : String → Option String) (var : String) : Option Nat :=
  (env var).bind fun value =>
    (parseU64 (strTrim value)).bind fun parsed =>
      if parsed = 0 then none else some parsed

/-- Source `cpu.rs::mb_to_bytes` (two saturating multiplications by 1024). -/
def mbToBytes (mb : Nat) : Nat := satMul64 (satMul64 mb 1024) 1024

/-- Source `cpu.rs::read_slurm_memory_total_bytes`.  Note the `allocated_cpus?`:
when the per-CPU variable is set but no CPU count resolved, the whole
function returns `none` without consulting `SLURM_MEM_PER_NODE`. -/
def readSlurmMemoryTotalBytes (env : String → Option String)
    (allocatedCpus : Option Nat) : Option Nat :=
  match readEnvU64 env "JOBSCOPE_MEM_TOTAL_MB" with
  | some memTotalMb => some (mbToBytes memTotalMb)
  | none =>
    match readEnvU64 env "SLURM_MEM_PER_CPU" with
    | some memPerCpuMb =>
      match allocatedCpus with
      | some cpus => some (mbToBytes (satMul64 memPerCpuMb cpus))
      | none => none
    | none =>
      match readEnvU64 env "SLURM_MEM_PER_NODE" with
      | some memPerNodeMb => some (mbToBytes memPerNodeMb)
      | none => none

/-- Source `cpu.rs::read_cgroup_memory_limit_bytes`. -/
def readCgroupMemoryLimitBytes (fs : String → Option String) : Option Nat :=
  match getCgroupMemoryPath fs with
  | none => none
  | some (path, true) =>
    match fs (path ++ "/memory.max") with
    | none => none
    | some s =>
      let s := strTrim s
      if s = "max" then none else parseU64 s
  | some (path, false) =>
    match readU64 fs (path ++ "/memory.limit_in_bytes") with
    | none => none
    | some limit => if limit ≥ 2 ^ 60 then none else some limit

/-- Source `cpu.rs::read_cgroup_memory_usage_bytes`. -/
def readCgroupMemoryUsageBytes (fs : String → Option String) :
    Option (Nat × Option Nat) :=
  match getCgroupMemoryPath fs with
  | none => none
  | some (path, true) =>
    (readU64 fs (path ++ "/memory.current")).map
      (fun current => (current, readU64 fs (path ++ "/memory.peak")))
  | some (path, false) =>
    (readU64 fs (path ++ "/memory.usage_in_bytes")).map
      (fun current => (current, readU64 fs (path ++ "/memory.max_usage_in_bytes")))

/-- Source `cpu.rs::sum_process_memory_bytes` (`u64` sum of resident memory). -/
def sumProcessMemoryBytes (sys : SysEnv) : Nat :=
  sys.processes.foldl (fun a p => u64add a p.memory) 0

/-! ## cpu.rs snapshot assembly -/

/-- The `(cpu_indices, fallback_cpu_count)` pair computed at the top of
`cpu.rs::take_cpus_snapshot`: in Local mode neither source is consulted; in
Slurm mode the affinity list and the raw `SLURM_CPUS_ON_NODE` parse
(no trim, no zero filter). -/
def cpuResolution (sys : SysEnv) (mode : AgentMode) :
    Option (List Nat) × Option Nat :=
  match mode with
  | .Local => (none, none)
  | .Slurm =>
    (readAllowedCpusFromStatus sys.fs, (sys.env "SLURM_CPUS_ON_NODE").bind parseU64)

/-- Source `allocated_cpus` in `cpu.rs::take_cpus_snapshot`: the affinity-list
length, else the environment count. -/
def allocatedCpusOf (sys : SysEnv) (mode : AgentMode) : Option Nat :=
  match cpuResolution sys mode with
  | (some v, _) => some v.length
  | (none, fallback) => fallback

/-- The per-index `include` test of `cpu.rs::take_cpus_snapshot`. -/
def cpuIncluded (resolution : Option (List Nat) × Option Nat) (index : Nat) : Bool :=
  match resolution with
  | (some allowed, _) => allowed.contains index
  | (none, some n) => decide (index < n)
  | (none, none) => true

/-- The cluster-managed memory computation of `cpu.rs::take_cpus_snapshot`
(the `AgentMode::Slurm` arm of the `memory` match). -/
def slurmMemory (sys : SysEnv) (allocatedCpus : Option Nat) : MemoryLoad :=
  let slurmTotal := readSlurmMemoryTotalBytes sys.env allocatedCpus
  let cgroupTotal := readCgroupMemoryLimitBytes sys.fs
  let total :=
    match slurmTotal, cgroupTotal with
    | some slurm, some cgroup => min slurm cgroup
    | some slurm, none => slurm
    | none, some cgroup => cgroup
    | none, none => sys.hostTotalMemory
  let usedPair := (readCgroupMemoryUsageBytes sys.fs).getD (0, none)
  let usedProcesses := sumProcessMemoryBytes sys
  let used0 := max usedPair.1 usedProcesses
  let used1 := if used0 = 0 then sys.hostUsedMemory else used0
  { usedBytes := min used1 total, totalBytes := total, maxUsedBytes := usedPair.2 }

/-- Source `cpu.rs::take_cpus_snapshot`. -/
def takeCpusSnapshot (sys : SysEnv) (mode : AgentMode) : CPUsSnapshot :=
  let resolution := cpuResolution sys mode
  let cpusInfo :=
    (sys.hostCpus.enum.filter (fun ic => cpuIncluded resolution ic.1)).map
      (fun ic => { index := ic.1, name := some ic.2.name, usagePercent := ic.2.usage : CPUInfo })
  let memory :=
    match mode with
    | .Local =>
      { usedBytes := sys.hostUsedMemory, totalBytes := sys.hostTotalMemory,
        maxUsedBytes := none }
    | .Slurm => slurmMemory sys (allocatedCpusOf sys mode)
  { cpus := cpusInfo, memory := memory }

/-! ## NVML environment and gpu.rs -/

/-- One running compute or graphics context as reported by NVML:
`used_gpu_memory` is `none` for `UsedGpuMemory::Unavailable`. -/
structure GpuContext where
  pid : Nat
  usedGpuMemory : Option Nat
deriving DecidableEq, Repr

/-- The per-device NVML query results; `none` models a query `Err`. -/
structure NvmlDevice where
  name : Option String
  utilizationRates : Option Nat
  memoryInfo : Option (Nat × Nat)
  runningComputeProcesses : Option (List GpuContext)
  runningGraphicsProcesses : Option (List GpuContext)

/-- The NVML library handle's view of the hardware: `deviceCount` is `none`
when `nvml.device_count()` fails, `devices i` is `none` when
`nvml.device_by_index(i)` fails. -/
structure NvmlEnv where
  deviceCount : Option Nat
  devices : Nat → Option NvmlDevice

/-- Source `gpu.rs::_collect_gpu_info`: a failed device handle, utilization query
or memory query drops the device; a failed name query only leaves the name
absent. -/
def collectGpuInfo (n : NvmlEnv) (index : Nat) : Option GPUInfo :=
  match n.devices index with
  | none => none
  | some device =>
    match device.utilizationRates with
    | none => none
    | some util =>
      match device.memoryInfo with
      | none => none
      | some mem =>
        some { index := index, name := device.name, usagePercent := (util : ℚ),
               memoryLoad := { usedBytes := mem.1, totalBytes := mem.2,
                               maxUsedBytes := none } }

/-- Source `gpu.rs::take_gpus_snapshot`. -/
def takeGpusSnapshot (nvml : Option NvmlEnv) : GPUsSnapshot :=
  match nvml with
  | none => { gpus := [] }
  | some n =>
    let deviceCount := n.deviceCount.getD 0
    { gpus := (List.range deviceCount).filterMap (collectGpuInfo n) }

/-! ## process.rs GPU attribution -/

/-- An accumulated per-PID GPU attribution entry:
`(gpu_usage_percent, gpu_memory_bytes, gpus_indexes)`. -/
abbrev GpuUsageEntry := ℚ × Nat × List Nat

/-- The per-PID accumulation map (`HashMap<u32, _>` in `process.rs`). -/
abbrev GpuUsageMap := Nat → Option GpuUsageEntry

/-- The `gpu_usage.entry(pid).and_modify(..).or_insert(..)` step of
`process.rs::_collect_gpu_usage`: usage and memory accumulate, the device
index is pushed only when not already present. -/
def gpuUsageUpdate (m : GpuUsageMap) (pid : Nat) (usagePercent : ℚ)
    (memory : Nat) (gpuIndex : Nat) : GpuUsageMap :=
  fun k =>
    if k = pid then
      some (match m pid with
        | some (usage, mem, gpus) =>
          (usage + usagePercent, u64add mem memory,
           if gpus.contains gpuIndex then gpus else gpus ++ [gpuIndex])
        | none => (usagePercent, memory, [gpuIndex]))
    else m k

/-- The pass-1 total-attributable-memory sum of
`process.rs::_collect_gpu_usage`: `Used` bytes of every compute context plus
every graphics context, a failed list query contributing nothing. -/
def deviceTotalMemory (device : NvmlDevice) : Nat :=
  let s :=
    (device.runningComputeProcesses.getD []).foldl
      (fun a c => match c.usedGpuMemory with | some bytes => u64add a bytes | none => a) 0
  (device.runningGraphicsProcesses.getD []).foldl
    (fun a c => match c.usedGpuMemory with | some bytes => u64add a bytes | none => a) s

/-- Pass 1 of `process.rs::_collect_gpu_usage`, as the map
`gpu_utilizations`: inserted exactly for the devices whose handle resolves. -/
def gpuUtilizationsMap (n : NvmlEnv) (index : Nat) : Option ℚ :=
  (n.devices index).map (fun d => ((d.utilizationRates.getD 0 : Nat) : ℚ))

/-- Pass 1 of `process.rs::_collect_gpu_usage`, as the map
`gpu_total_memory`. -/
def gpuTotalMemoryMap (n : NvmlEnv) (index : Nat) : Option Nat :=
  (n.devices index).map deviceTotalMemory

/-- The estimated share of one context in pass 2:
`(memory / total_memory) * gpu_util` when the total is positive, else 0. -/
def contextUsagePercent (memory totalMemory : Nat) (gpuUtil : ℚ) : ℚ :=
  if 0 < totalMemory then ((memory : ℚ) / (totalMemory : ℚ)) * gpuUtil else 0

/-- Pass 2 over one context list: fold the accumulation step over the
contexts in order (`Unavailable` memory counts as 0). -/
def applyContexts (gpuIndex : Nat) (gpuUtil : ℚ) (totalMemory : Nat)
    (ctxs : List GpuContext) (m : GpuUsageMap) : GpuUsageMap :=
  ctxs.foldl
    (fun acc c =>
      let memory := c.usedGpuMemory.getD 0
      gpuUsageUpdate acc c.pid (contextUsagePercent memory totalMemory gpuUtil)
        memory gpuIndex)
    m

/-- Pass 2 of `process.rs::_collect_gpu_usage` for one device: a failed
device handle skips the device; a failed compute-list query skips the
device's graphics list too (the Rust `continue`); `unwrap_or` defaults are
0.0 for utilization and 1 for total memory. -/
def pass2Device (n : NvmlEnv) (index : Nat) (m : GpuUsageMap) : GpuUsageMap :=
  match n.devices index with
  | none => m
  | some device =>
    let gpuUtil := (gpuUtilizationsMap n index).getD 0
    let totalMemory := (gpuTotalMemoryMap n index).getD 1
    match device.runningComputeProcesses with
    | none => m
    | some computeProcesses =>
      let m := applyContexts index gpuUtil totalMemory computeProcesses m
      match device.runningGraphicsProcesses with
      | none => m
      | some graphicsProcesses => applyContexts index gpuUtil totalMemory graphicsProcesses m

/-- Source `process.rs::_collect_gpu_usage`: empty on a failed device count, else
the pass-2 fold over device indices in order. -/
def collectGpuUsage (n : NvmlEnv) : GpuUsageMap :=
  match n.deviceCount with
  | none => fun _ => none
  | some deviceCount =>
    (List.range deviceCount).foldl (fun m index => pass2Device n index m)
      (fun _ => none)

/-- Source `process.rs::take_processes_snapshot`: join sysinfo process facts with
the GPU attribution map, give every positively-active process the full host
CPU index range, and keep only processes with non-zero CPU usage, GPU usage
or resident memory. -/
def takeProcessesSnapshot (sys : SysEnv) (nvml : Option NvmlEnv) : ProcessesSnapshot :=
  let gpuUsageMap : GpuUsageMap :=
    match nvml with
    | some n => collectGpuUsage n
    | none => fun _ => none
  let cpuCount := sys.hostCpus.length
  { processes :=
      (sys.processes.map (fun p =>
        let gpuInfo := (gpuUsageMap p.pid).getD (0, 0, [])
        let cpusIndexes := if 0 < p.cpuUsage then List.range cpuCount else []
        { pid := p.pid, name := p.name, cpuUsagePercent := p.cpuUsage,
          cpuMemoryBytes := p.memory, gpuUsagePercent := gpuInfo.1,
          gpuMemoryBytes := gpuInfo.2.1, cpusIndexes := cpusIndexes,
          gpusIndexes := gpuInfo.2.2 : ProcessInfo })).filter
        (fun p => decide (0 < p.cpuUsagePercent) || decide (0 < p.gpuUsagePercent)
          || decide (0 < p.cpuMemoryBytes)) }

/-! ## Concrete environments used by witnesses and counterexamples -/

/-- Environment with a per-CPU memory value and a per-node memory value but
no explicit override. -/
def envC2v : String → Option String := fun v =>
  if v = "SLURM_MEM_PER_CPU" then some "1024"
  else if v = "SLURM_MEM_PER_NODE" then some "2048"
  else none

/-- File system: v2 cgroup at `/job` with a 2048 MiB `memory.max` limit. -/
def fsC6 : String → Option String := fun p =>
  if p = "/proc/self/cgroup" then some "0::/job\n"
  else if p = "/sys/fs/cgroup/job/memory.max" then some "2147483648\n"
  else none

/-- Environment with `SLURM_MEM_PER_CPU=1024` and `SLURM_CPUS_ON_NODE=4`. -/
def envC6 : String → Option String := fun v =>
  if v = "SLURM_MEM_PER_CPU" then some "1024"
  else if v = "SLURM_CPUS_ON_NODE" then some "4"
  else none

/-- Host with one CPU, the C6 file system and environment. -/
def sysC6 : SysEnv :=
  { fs := fsC6, env := envC6, hostCpus := [{ name := "cpu0", usage := 10 }],
    hostTotalMemory := 17179869184, hostUsedMemory := 1000000, processes := [] }

/-- File system: v2 cgroup at `/job` whose limit file holds the `max`
sentinel. -/
def fsC8max : String → Option String := fun p =>
  if p = "/proc/self/cgroup" then some "0::/job\n"
  else if p = "/sys/fs/cgroup/job/memory.max" then some "max\n"
  else none

/-- Environment whose per-CPU memory value is the string `"0"`. -/
def envC10a : String → Option String := fun v =>
  if v = "SLURM_MEM_PER_CPU" then some "0"
  else if v = "SLURM_MEM_PER_NODE" then some "2048"
  else none

/-- Same as `envC10a` with the per-CPU variable removed. -/
def envC10b : String → Option String := fun v =>
  if v = "SLURM_MEM_PER_NODE" then some "2048" else none

/-- Host with four CPUs, a scheduling-affinity list `{0,2}`, and one process
at 50% CPU. -/
def sysC3 : SysEnv :=
  { fs := fun p =>
      if p = "/proc/self/status" then some "Cpus_allowed_list:\t0,2\n" else none,
    env := fun _ => none,
    hostCpus :=
      [{ name := "cpu0", usage := 5 }, { name := "cpu1", usage := 6 },
       { name := "cpu2", usage := 7 }, { name := "cpu3", usage := 8 }],
    hostTotalMemory := 1000000, hostUsedMemory := 400000,
    processes := [{ pid := 7, name := some "worker", cpuUsage := 50, memory := 100 }] }

/-- Host whose raw counters satisfy `used ≤ total`, no Slurm sources. -/
def sysC1ok : SysEnv :=
  { fs := fun _ => none, env := fun _ => none,
    hostCpus := [{ name := "cpu0", usage := 3 }],
    hostTotalMemory := 2000, hostUsedMemory := 1500,
    processes := [{ pid := 3, name := none, cpuUsage := 1, memory := 10 }] }

/-- NVML view with one device reporting more used than total device memory. -/
def nvmlBadMem : NvmlEnv :=
  { deviceCount := some 1,
    devices := fun i =>
      if i = 0 then
        some { name := some "gpu0", utilizationRates := some 30,
               memoryInfo := some (10, 5), runningComputeProcesses := some [],
               runningGraphicsProcesses := some [] }
      else none }

/-- NVML view with one healthy device (every index answers the same healthy
device; only index 0 is enumerated). -/
def nvmlOk : NvmlEnv :=
  { deviceCount := some 1,
    devices := fun _ =>
      some { name := some "gpu0", utilizationRates := some 30,
             memoryInfo := some (100, 200), runningComputeProcesses := some [],
             runningGraphicsProcesses := some [] } }

/-- The process record assembled for the single process of `sysC3`. -/
def procC3 : ProcessInfo :=
  { pid := 7, name := some "worker", cpuUsagePercent := 50, cpuMemoryBytes := 100,
    gpuUsagePercent := 0, gpuMemoryBytes := 0, cpusIndexes := [0, 1, 2, 3],
    gpusIndexes := [] }

/-- NVML view with one device whose name query fails but whose utilization
and memory queries succeed. -/
def nvmlNameFail : NvmlEnv :=
  { deviceCount := some 1,
    devices := fun i =>
      if i = 0 then
        some { name := none, utilizationRates := some 30,
               memoryInfo := some (100, 200), runningComputeProcesses := some [],
               runningGraphicsProcesses := some [] }
      else none }

/-- NVML view with a healthy device 0 and a device 1 whose utilization
query fails. -/
def nvmlMixed : NvmlEnv :=
  { deviceCount := some 2,
    devices := fun i =>
      if i = 0 then
        some { name := some "gpu0", utilizationRates := some 30,
               memoryInfo := some (100, 200), runningComputeProcesses := some [],
               runningGraphicsProcesses := some [] }
      else if i = 1 then
        some { name := some "gpu1", utilizationRates := none,
               memoryInfo := some (100, 200), runningComputeProcesses := some [],
               runningGraphicsProcesses := some [] }
      else none }

/-- NVML view with a single device at the given utilization and the given
compute and graphics context lists. -/
def oneDeviceEnv (util : Nat) (cps gps : List GpuContext) : NvmlEnv :=
  { deviceCount := some 1,
    devices := fun i =>
      if i = 0 then
        some { name := none, utilizationRates := some util,
               memoryInfo := some (0, 0), runningComputeProcesses := some cps,
               runningGraphicsProcesses := some gps }
      else none }

/-! ## Helper lemmas -/

theorem u64add_eq_of_lt {a b : Nat} (h : a + b < 2 ^ 64) : u64add a b = a + b :=
  Nat.mod_eq_of_lt h

/-! ## C2: memory-total resolution priority -/

/-- Claim C2, counterexample: with the override unset, the per-CPU value set
to 1024 and the per-node value set to 2048, an unresolved allocated-CPU
count makes resolution return absent — it does not proceed to the per-node
value as the claim states. -/
theorem c2_counterexample :
    readSlurmMemoryTotalBytes envC2v none = none
    ∧ readEnvU64 envC2v "SLURM_MEM_PER_NODE" = some 2048
    ∧ readEnvU64 envC2v "JOBSCOPE_MEM_TOTAL_MB" = none := by
  decide

/-- Claim C2, amended: memory-total resolution tries the override, then the
per-CPU value times the allocated-CPU count, then the per-node value, first
success winning; but when the override is unset and the per-CPU value is
set while no allocated-CPU count is resolved, resolution returns absent
immediately and the per-node value is never consulted. -/
theorem c2_memory_total_priority (env : String → Option String) (cpus : Option Nat) :
    (∀ t, readEnvU64 env "JOBSCOPE_MEM_TOTAL_MB" = some t →
      readSlurmMemoryTotalBytes env cpus = some (mbToBytes t))
    ∧ (∀ p c, readEnvU64 env "JOBSCOPE_MEM_TOTAL_MB" = none →
      readEnvU64 env "SLURM_MEM_PER_CPU" = some p → cpus = some c →
      readSlurmMemoryTotalBytes env cpus = some (mbToBytes (satMul64 p c)))
    ∧ (∀ p, readEnvU64 env "JOBSCOPE_MEM_TOTAL_MB" = none →
      readEnvU64 env "SLURM_MEM_PER_CPU" = some p → cpus = none →
      readSlurmMemoryTotalBytes env cpus = none)
    ∧ (readEnvU64 env "JOBSCOPE_MEM_TOTAL_MB" = none →
      readEnvU64 env "SLURM_MEM_PER_CPU" = none →
      readSlurmMemoryTotalBytes env cpus
        = (readEnvU64 env "SLURM_MEM_PER_NODE").map mbToBytes) := by
  refine ⟨fun t ht => ?_, fun p c h1 h2 h3 => ?_, fun p h1 h2 h3 => ?_, fun h1 h2 => ?_⟩
  · simp [readSlurmMemoryTotalBytes, ht]
  · subst h3; simp [readSlurmMemoryTotalBytes, h1, h2]
  · subst h3; simp [readSlurmMemoryTotalBytes, h1, h2]
  · simp only [readSlurmMemoryTotalBytes, h1, h2]
    cases readEnvU64 env "SLURM_MEM_PER_NODE" <;> rfl

/-- Claim C2, witness: the amended theorem applied to the concrete
environment of the counterexample. -/
theorem c2_witness : readSlurmMemoryTotalBytes envC2v none = none :=
  (c2_memory_total_priority envC2v none).2.2.1 1024 (by decide) (by decide) rfl

/-! ## C6: effective total is the minimum of environment and cgroup -/

/-- Claim C6 (confirmed): in cluster-managed mode, when both an
environment-derived memory total and a cgroup memory limit resolve, the
snapshot's total is their minimum. -/
theorem c6_effective_total_is_min (sys : SysEnv) (s c : Nat)
    (hs : readSlurmMemoryTotalBytes sys.env (allocatedCpusOf sys .Slurm) = some s)
    (hc : readCgroupMemoryLimitBytes sys.fs = some c) :
    (takeCpusSnapshot sys .Slurm).memory.totalBytes = min s c := by
  simp [takeCpusSnapshot, slurmMemory, hs, hc]

/-- Claim C6, witness: per-CPU 1024 MiB with 4 allocated CPUs gives an
environment total of 4096 MiB; with a 2048 MiB cgroup limit the effective
total is 2048 MiB. -/
theorem c6_witness :
    (takeCpusSnapshot sysC6 .Slurm).memory.totalBytes = 2147483648 :=
  (c6_effective_total_is_min sysC6 4294967296 2147483648 (by decide)
    (by decide)).trans (by norm_num)

/-! ## C10: an environment value parsing to zero is treated as unset -/

/-- Claim C10 (confirmed): for each of the three memory environment
variables, a value parsing to 0 makes the variable read as absent, and
memory-total resolution behaves exactly as if the variable were unset. -/
theorem c10_zero_env_treated_unset (env env2 : String → Option String)
    (var s : String) (cpus : Option Nat)
    (hvar : var = "JOBSCOPE_MEM_TOTAL_MB" ∨ var = "SLURM_MEM_PER_CPU"
      ∨ var = "SLURM_MEM_PER_NODE")
    (hs : env var = some s) (h0 : parseU64 (strTrim s) = some 0)
    (hnone : env2 var = none) (hsame : ∀ w, w ≠ var → env2 w = env w) :
    readEnvU64 env var = none
    ∧ readSlurmMemoryTotalBytes env cpus = readSlurmMemoryTotalBytes env2 cpus := by
  have hzero : readEnvU64 env var = none := by simp [readEnvU64, hs, h0]
  have hzero2 : readEnvU64 env2 var = none := by simp [readEnvU64, hnone]
  have hagree : ∀ w, w ≠ var → readEnvU64 env2 w = readEnvU64 env w := by
    intro w hw
    simp [readEnvU64, hsame w hw]
  refine ⟨hzero, ?_⟩
  rcases hvar with h | h | h <;> subst h <;> unfold readSlurmMemoryTotalBytes
  · rw [hzero, hzero2, hagree "SLURM_MEM_PER_CPU" (by decide),
      hagree "SLURM_MEM_PER_NODE" (by decide)]
  · rw [hzero, hzero2, hagree "JOBSCOPE_MEM_TOTAL_MB" (by decide),
      hagree "SLURM_MEM_PER_NODE" (by decide)]
  · rw [hzero, hzero2, hagree "JOBSCOPE_MEM_TOTAL_MB" (by decide),
      hagree "SLURM_MEM_PER_CPU" (by decide)]

/-- Claim C10, witness: a per-CPU value of `"0"` reads as absent and
resolution proceeds to the 2048 MiB per-node value in both environments. -/
theorem c10_witness :
    readEnvU64 envC10a "SLURM_MEM_PER_CPU" = none
    ∧ readSlurmMemoryTotalBytes envC10a none = readSlurmMemoryTotalBytes envC10b none :=
  c10_zero_env_treated_unset envC10a envC10b "SLURM_MEM_PER_CPU" "0" none
    (Or.inr (Or.inl rfl)) (by decide) (by decide) (by decide)
    (by intro w hw; simp [envC10a, envC10b, hw])

/-! ## C7: cgroup-location parsing -/

/-- Claim C7 (confirmed): cgroup-location scanning returns the first match;
an empty controllers field yields the v2 root joined with the record's path,
a controllers field containing `memory` yields the v1 memory root joined
with the record's path, and a record with other non-empty controllers is
skipped with scanning continuing on the remaining records. -/
theorem c7_cgroup_location (fs : String → Option String)
    (content line path controllers : String) (rest : List String) :
    (fs "/proc/self/cgroup" = some content →
      getCgroupMemoryPath fs = cgroupScan (rustLines content))
    ∧ ((splitChar ':' line)[1]? = some "" → (splitChar ':' line)[2]? = some path →
      cgroupScan (line :: rest) = some ("/sys/fs/cgroup" ++ path, true))
    ∧ ((splitChar ':' line)[1]? = some controllers →
      (splitChar ':' line)[2]? = some path → controllers ≠ "" →
      ((splitChar ',' controllers).any (fun c => c = "memory")) = true →
      cgroupScan (line :: rest) = some ("/sys/fs/cgroup/memory" ++ path, false))
    ∧ ((splitChar ':' line)[1]? = some controllers →
      (splitChar ':' line)[2]? = some path → controllers ≠ "" →
      ((splitChar ',' controllers).any (fun c => c = "memory")) = false →
      cgroupScan (line :: rest) = cgroupScan rest) := by
  refine ⟨fun h => ?_, fun h1 h2 => ?_, fun h1 h2 h3 h4 => ?_, fun h1 h2 h3 h4 => ?_⟩
  · simp [getCgroupMemoryPath, h]
  · simp [cgroupScan, h1, h2]
  · simp [cgroupScan, h1, h2, h3, h4]
  · simp [cgroupScan, h1, h2, h3, h4]

/-- Claim C7, witness: `"5:cpu:/foo"` is skipped and scanning continues to
the matching `"5:memory:/foo"` record; `"0::/foo"` resolves to the v2 root. -/
theorem c7_witness :
    cgroupScan ["5:cpu:/foo", "5:memory:/foo"] = some ("/sys/fs/cgroup/memory/foo", false)
    ∧ cgroupScan ["0::/foo"] = some ("/sys/fs/cgroup/foo", true) := by
  have h1 := (c7_cgroup_location (fun _ => none) "" "5:cpu:/foo" "/foo" "cpu"
    ["5:memory:/foo"]).2.2.2 (by decide) (by decide) (by decide) (by decide)
  have h2 := (c7_cgroup_location (fun _ => none) "" "5:memory:/foo" "/foo" "memory"
    []).2.2.1 (by decide) (by decide) (by decide) (by decide)
  have h3 := (c7_cgroup_location (fun _ => none) "" "0::/foo" "/foo" ""
    []).2.1 (by decide) (by decide)
  exact ⟨h1.trans (h2.trans (by decide)), h3.trans (by decide)⟩

/-! ## C8: cgroup memory-limit absence conditions -/

/-- Claim C8 (confirmed): the cgroup memory limit reads absent exactly when
no cgroup location resolves, or the v2 limit file is missing, holds the
`max` sentinel or fails to parse, or the v1 limit file is missing, fails to
parse or reports a value at or above `2^60`; otherwise it returns the
parsed limit. -/
theorem c8_cgroup_limit_absent (fs : String → Option String) :
    (readCgroupMemoryLimitBytes fs = none ↔
      getCgroupMemoryPath fs = none
      ∨ (∃ p, getCgroupMemoryPath fs = some (p, true) ∧
          ((fs (p ++ "/memory.max")).map strTrim = none
            ∨ (fs (p ++ "/memory.max")).map strTrim = some "max"
            ∨ ∃ s, (fs (p ++ "/memory.max")).map strTrim = some s ∧ s ≠ "max"
                ∧ parseU64 s = none))
      ∨ (∃ p, getCgroupMemoryPath fs = some (p, false) ∧
          (readU64 fs (p ++ "/memory.limit_in_bytes") = none
            ∨ ∃ v, readU64 fs (p ++ "/memory.limit_in_bytes") = some v ∧ 2 ^ 60 ≤ v)))
    ∧ (∀ v, readCgroupMemoryLimitBytes fs = some v →
      (∃ p s, getCgroupMemoryPath fs = some (p, true)
          ∧ (fs (p ++ "/memory.max")).map strTrim = some s ∧ parseU64 s = some v)
      ∨ (∃ p, getCgroupMemoryPath fs = some (p, false)
          ∧ readU64 fs (p ++ "/memory.limit_in_bytes") = some v ∧ v < 2 ^ 60)) := by
  rcases hp : getCgroupMemoryPath fs with _ | ⟨p, b⟩
  · refine ⟨by simp [readCgroupMemoryLimitBytes, hp], fun v hv => ?_⟩
    simp [readCgroupMemoryLimitBytes, hp] at hv
  · cases b
    · rcases hr : readU64 fs (p ++ "/memory.limit_in_bytes") with _ | v0
      · refine ⟨by simp [readCgroupMemoryLimitBytes, hp, hr], fun v hv => ?_⟩
        simp [readCgroupMemoryLimitBytes, hp, hr] at hv
      · by_cases hbig : v0 ≥ 2 ^ 60
        · refine ⟨by simp [readCgroupMemoryLimitBytes, hp, hr, hbig], fun v hv => ?_⟩
          simp [readCgroupMemoryLimitBytes, hp, hr] at hv
          exact absurd hv.1 (not_lt.mpr hbig)
        · refine ⟨by simp [readCgroupMemoryLimitBytes, hp, hr, hbig], fun v hv => ?_⟩
          simp [readCgroupMemoryLimitBytes, hp, hr] at hv
          exact Or.inr ⟨p, rfl, hv.2 ▸ hr, hv.2 ▸ hv.1⟩
    · rcases hf : fs (p ++ "/memory.max") with _ | s
      · refine ⟨by simp [readCgroupMemoryLimitBytes, hp, hf], fun v hv => ?_⟩
        simp [readCgroupMemoryLimitBytes, hp, hf] at hv
      · by_cases hmax : strTrim s = "max"
        · refine ⟨by simp [readCgroupMemoryLimitBytes, hp, hf, hmax], fun v hv => ?_⟩
          simp [readCgroupMemoryLimitBytes, hp, hf, hmax] at hv
        · rcases hv0 : parseU64 (strTrim s) with _ | v0
          · have hnone : readCgroupMemoryLimitBytes fs = none := by
              simp [readCgroupMemoryLimitBytes, hp, hf, hmax, hv0]
            refine ⟨iff_of_true hnone ?_, fun v hv => ?_⟩
            · exact Or.inr (Or.inl ⟨p, rfl,
                Or.inr (Or.inr ⟨strTrim s, by simp [hf], hmax, hv0⟩)⟩)
            · rw [hnone] at hv
              exact Option.noConfusion hv
          · refine ⟨?_, fun v hv => ?_⟩
            · simp [readCgroupMemoryLimitBytes, hp, hf, hmax, hv0]
            · simp [readCgroupMemoryLimitBytes, hp, hf, hmax, hv0] at hv
              exact Or.inl ⟨p, strTrim s, rfl, by simp [hf], hv ▸ hv0⟩

/-- Claim C8, witness: a v2 limit file holding the `max` sentinel reads as
absent via the characterization theorem. -/
theorem c8_witness : readCgroupMemoryLimitBytes fsC8max = none :=
  (c8_cgroup_limit_absent fsC8max).1.mpr
    (Or.inr (Or.inl ⟨"/sys/fs/cgroup/job", by decide, Or.inr (Or.inl (by decide))⟩))

/-! ## C1: used ≤ total for memory loads -/

/-- Claim C1, counterexample: a GPU device reporting 10 used / 5 total
bytes is passed through unclamped, so the snapshot contains a MemoryLoad
with `used_bytes > total_bytes`. -/
theorem c1_counterexample :
    ((takeGpusSnapshot (some nvmlBadMem)).gpus.map
      (fun g => decide (g.memoryLoad.usedBytes ≤ g.memoryLoad.totalBytes))) = [false] := by
  decide

/-- Claim C1, amended: the cluster-managed CPU memory load is clamped and
always satisfies `used ≤ total`; the local-mode load satisfies it whenever
the host counters do, and every GPU memory load satisfies it whenever the
device reports `used ≤ total` — neither of the latter two is clamped by the
code. -/
theorem c1_memory_used_le_total (sys : SysEnv) (n : NvmlEnv) (g : GPUInfo)
    (hlocal : sys.hostUsedMemory ≤ sys.hostTotalMemory)
    (hgpu : ∀ index d, n.devices index = some d →
      ∀ u t, d.memoryInfo = some (u, t) → u ≤ t)
    (hg : g ∈ (takeGpusSnapshot (some n)).gpus) :
    ((takeCpusSnapshot sys .Slurm).memory.usedBytes
      ≤ (takeCpusSnapshot sys .Slurm).memory.totalBytes)
    ∧ ((takeCpusSnapshot sys .Local).memory.usedBytes
      ≤ (takeCpusSnapshot sys .Local).memory.totalBytes)
    ∧ g.memoryLoad.usedBytes ≤ g.memoryLoad.totalBytes := by
  refine ⟨?_, ?_, ?_⟩
  · simp only [takeCpusSnapshot, slurmMemory]
    exact Nat.min_le_right _ _
  · simpa [takeCpusSnapshot] using hlocal
  · simp only [takeGpusSnapshot] at hg
    rcases List.mem_filterMap.mp hg with ⟨idx, -, hcol⟩
    rcases hd : n.devices idx with _ | d
    · simp [collectGpuInfo, hd] at hcol
    · rcases hu : d.utilizationRates with _ | util
      · simp [collectGpuInfo, hd, hu] at hcol
      · rcases hm : d.memoryInfo with _ | mem
        · simp [collectGpuInfo, hd, hu, hm] at hcol
        · simp only [collectGpuInfo, hd, hu, hm, Option.some.injEq] at hcol
          subst hcol
          exact hgpu idx d hd mem.1 mem.2 hm

/-- Claim C1, witness: the amended theorem at a host whose counters satisfy
`used ≤ total` and an NVML view whose single device reports 100/200. -/
theorem c1_witness :
    ((takeCpusSnapshot sysC1ok .Slurm).memory.usedBytes
      ≤ (takeCpusSnapshot sysC1ok .Slurm).memory.totalBytes)
    ∧ ((takeCpusSnapshot sysC1ok .Local).memory.usedBytes
      ≤ (takeCpusSnapshot sysC1ok .Local).memory.totalBytes)
    ∧ (GPUInfo.mk 0 (some "gpu0") 30
        (MemoryLoad.mk 100 200 none)).memoryLoad.usedBytes
      ≤ (GPUInfo.mk 0 (some "gpu0") 30
        (MemoryLoad.mk 100 200 none)).memoryLoad.totalBytes :=
  c1_memory_used_le_total sysC1ok nvmlOk _ (by decide)
    (by
      intro index d hd u t hm
      simp [nvmlOk] at hd
      subst hd
      simp only [Option.some.injEq, Prod.mk.injEq] at hm
      omega)
    (by decide)

/-! ## C3: per-process CPU indices -/

/-- Claim C3, counterexample: in cluster-managed mode with affinity `{0,2}`
on a 4-CPU host, the snapshot's resolved CPU set is `{0,2}` but an active
process is reported with CPU indices `{0,1,2,3}` — index 1 is reported
though it is not in the resolved set. -/
theorem c3_counterexample :
    ((takeCpusSnapshot sysC3 .Slurm).cpus.map CPUInfo.index) = [0, 2]
    ∧ ((takeProcessesSnapshot sysC3 none).processes.map ProcessInfo.cpusIndexes)
      = [[0, 1, 2, 3]]
    ∧ ((takeProcessesSnapshot sysC3 none).processes.map ProcessInfo.cpuUsagePercent)
      = [50]
    ∧ (1 : Nat) ∈ [0, 1, 2, 3] ∧ (1 : Nat) ∉ [0, 2] := by
  decide

/-- Claim C3, amended: a process with positive CPU usage is reported with
the full host CPU index range `0..hostCpuCount-1` (not the mode-resolved
CPU set), and a process without positive CPU usage with an empty index
list. -/
theorem c3_process_cpu_indices (sys : SysEnv) (nvml : Option NvmlEnv)
    (p : ProcessInfo) (hp : p ∈ (takeProcessesSnapshot sys nvml).processes) :
    (0 < p.cpuUsagePercent → p.cpusIndexes = List.range sys.hostCpus.length)
    ∧ (¬ 0 < p.cpuUsagePercent → p.cpusIndexes = []) := by
  simp only [takeProcessesSnapshot] at hp
  rcases List.mem_filter.mp hp with ⟨hmem, -⟩
  rcases List.mem_map.mp hmem with ⟨q, -, rfl⟩
  refine ⟨fun hpos => ?_, fun hneg => ?_⟩
  · have h : 0 < q.cpuUsage := by simpa using hpos
    simp [h]
  · have h : ¬ 0 < q.cpuUsage := by simpa using hneg
    simp [h]

/-- Claim C3, witness: the amended theorem at the 4-CPU host of the
counterexample, whose single active process carries indices `[0,1,2,3]`. -/
theorem c3_witness :
    (0 < procC3.cpuUsagePercent →
      procC3.cpusIndexes = List.range sysC3.hostCpus.length)
    ∧ (¬ 0 < procC3.cpuUsagePercent → procC3.cpusIndexes = []) :=
  c3_process_cpu_indices sysC3 none procC3 (by decide)

/-! ## C4: per-context GPU utilization shares -/

/-- Claim C4 (confirmed): for a device with two compute contexts, each
context's accumulated share is `(context_memory / total_attributable_memory)
* device_utilization`, and the shares sum to exactly the device's
utilization (float arithmetic modelled as exact rationals). -/
theorem c4_gpu_attribution_shares (p1 p2 m1 m2 util : Nat)
    (hne : p1 ≠ p2) (hpos : 0 < m1 + m2) (hbound : m1 + m2 < 2 ^ 64) :
    collectGpuUsage (oneDeviceEnv util [⟨p1, some m1⟩, ⟨p2, some m2⟩] []) p1
      = some ((m1 : ℚ) / ((m1 : ℚ) + (m2 : ℚ)) * (util : ℚ), m1, [0])
    ∧ collectGpuUsage (oneDeviceEnv util [⟨p1, some m1⟩, ⟨p2, some m2⟩] []) p2
      = some ((m2 : ℚ) / ((m1 : ℚ) + (m2 : ℚ)) * (util : ℚ), m2, [0])
    ∧ (m1 : ℚ) / ((m1 : ℚ) + (m2 : ℚ)) * (util : ℚ)
      + (m2 : ℚ) / ((m1 : ℚ) + (m2 : ℚ)) * (util : ℚ) = (util : ℚ) := by
  have h1 : u64add 0 m1 = m1 := (u64add_eq_of_lt (by omega)).trans (Nat.zero_add m1)
  have h2 : u64add m1 m2 = m1 + m2 := u64add_eq_of_lt hbound
  have hne' : p2 ≠ p1 := hne.symm
  refine ⟨?_, ?_, ?_⟩
  · simp [collectGpuUsage, oneDeviceEnv, pass2Device, gpuUtilizationsMap,
      gpuTotalMemoryMap, deviceTotalMemory, applyContexts, gpuUsageUpdate,
      contextUsagePercent, h1, h2, hne, hne', hpos, List.range_succ]
  · simp [collectGpuUsage, oneDeviceEnv, pass2Device, gpuUtilizationsMap,
      gpuTotalMemoryMap, deviceTotalMemory, applyContexts, gpuUsageUpdate,
      contextUsagePercent, h1, h2, hne, hne', hpos, List.range_succ]
  · have hq : (m1 : ℚ) + (m2 : ℚ) ≠ 0 := by
      have : ((m1 + m2 : Nat) : ℚ) ≠ 0 := Nat.cast_ne_zero.mpr hpos.ne'
      push_cast at this
      exact this
    field_simp
    ring

/-- Claim C4, witness: one device at 50% with compute contexts of 100 MB and
300 MB yields shares 12.5% and 37.5%, summing to 50%. -/
theorem c4_witness :
    collectGpuUsage (oneDeviceEnv 50 [⟨1, some 104857600⟩, ⟨2, some 314572800⟩] []) 1
      = some (25 / 2, 104857600, [0])
    ∧ collectGpuUsage (oneDeviceEnv 50 [⟨1, some 104857600⟩, ⟨2, some 314572800⟩] []) 2
      = some (75 / 2, 314572800, [0])
    ∧ (25 / 2 : ℚ) + 75 / 2 = 50 := by
  have h := c4_gpu_attribution_shares 1 2 104857600 314572800 50 (by decide)
    (by decide) (by decide)
  exact ⟨h.1.trans (by norm_num), h.2.1.trans (by norm_num), by norm_num⟩

/-! ## C5: double counting across compute and graphics lists -/

/-- Claim C5 (confirmed): a PID appearing in both a device's compute list
(memory `a`) and its graphics list (memory `b`) accumulates both utilization
shares and both memory amounts, while the device index appears exactly once
in its device list. -/
theorem c5_double_count (p a b util : Nat) (hpos : 0 < a + b)
    (hbound : a + b < 2 ^ 64) :
    collectGpuUsage (oneDeviceEnv util [⟨p, some a⟩] [⟨p, some b⟩]) p
      = some ((a : ℚ) / ((a : ℚ) + (b : ℚ)) * (util : ℚ)
          + (b : ℚ) / ((a : ℚ) + (b : ℚ)) * (util : ℚ), a + b, [0]) := by
  have h1 : u64add 0 a = a := (u64add_eq_of_lt (by omega)).trans (Nat.zero_add a)
  have h2 : u64add a b = a + b := u64add_eq_of_lt hbound
  simp [collectGpuUsage, oneDeviceEnv, pass2Device, gpuUtilizationsMap,
    gpuTotalMemoryMap, deviceTotalMemory, applyContexts, gpuUsageUpdate,
    contextUsagePercent, h1, h2, hpos, List.range_succ]

/-- Claim C5, witness: one device at 60% with the same PID holding 100 bytes
in the compute list and 200 bytes in the graphics list accumulates 60%
usage, 300 bytes, and the single device index 0. -/
theorem c5_witness :
    collectGpuUsage (oneDeviceEnv 60 [⟨7, some 100⟩] [⟨7, some 200⟩]) 7
      = some (60, 300, [0]) :=
  (c5_double_count 7 100 200 60 (by decide) (by decide)).trans (by norm_num)

/-! ## C9: per-device query failures in the GPU inventory -/

/-- Claim C9, counterexample: a device whose name query fails but whose
utilization and memory queries succeed is still reported (with an absent
name) — it is not dropped from the inventory as the claim states. -/
theorem c9_counterexample :
    (takeGpusSnapshot (some nvmlNameFail)).gpus
      = [{ index := 0, name := none, usagePercent := 30,
           memoryLoad := { usedBytes := 100, totalBytes := 200, maxUsedBytes := none } }]
    ∧ (nvmlNameFail.devices 0).map NvmlDevice.name = some none := by
  decide

/-- Claim C9, amended: an absent library handle yields an empty inventory; a
device is dropped exactly when its handle, utilization-rates or memory-info
query fails (a name failure only leaves the name absent); devices that
survive remain in the inventory. -/
theorem c9_device_drop (n : NvmlEnv) (index : Nat) (g : GPUInfo) :
    (takeGpusSnapshot none).gpus = []
    ∧ (collectGpuInfo n index = none ↔
        n.devices index = none
        ∨ ∃ d, n.devices index = some d
            ∧ (d.utilizationRates = none ∨ d.memoryInfo = none))
    ∧ (index < n.deviceCount.getD 0 → collectGpuInfo n index = some g →
        g ∈ (takeGpusSnapshot (some n)).gpus) := by
  refine ⟨rfl, ?_, fun hlt hcol => ?_⟩
  · rcases hd : n.devices index with _ | d
    · simp [collectGpuInfo, hd]
    · rcases hu : d.utilizationRates with _ | util
      · simp [collectGpuInfo, hd, hu]
      · rcases hm : d.memoryInfo with _ | mem
        · simp [collectGpuInfo, hd, hu, hm]
        · simp [collectGpuInfo, hd, hu, hm]
  · simp only [takeGpusSnapshot]
    exact List.mem_filterMap.mpr ⟨index, List.mem_range.mpr hlt, hcol⟩

/-- Claim C9, witness: in a two-device view, device 1 (failed utilization
query) is dropped while the healthy device 0 is still reported. -/
theorem c9_witness :
    collectGpuInfo nvmlMixed 1 = none
    ∧ GPUInfo.mk 0 (some "gpu0") 30 (MemoryLoad.mk 100 200 none)
      ∈ (takeGpusSnapshot (some nvmlMixed)).gpus := by
  refine ⟨?_, ?_⟩
  · exact (c9_device_drop nvmlMixed 1
      (GPUInfo.mk 0 none 0 (MemoryLoad.mk 0 0 none))).2.1.mpr
      (Or.inr ⟨_, rfl, Or.inl rfl⟩)
  · exact (c9_device_drop nvmlMixed 0
      (GPUInfo.mk 0 (some "gpu0") 30 (MemoryLoad.mk 100 200 none))).2.2
      (by decide) (by decide)

end Jobscope
